import Mathlib

/-!
Verification of the spectroscopy-tutorial pipeline: spectrum loading,
Galactic dust lookup, extinction correction and rest-frame transform.
The repository's notebook leaves every code cell blank for the learner
to fill in, so each stage below is modelled from the specification's
formulas and contracts.
-/

namespace Spectroscopy

/-- Modelled from the spec: the error kinds of section 7 (the notebook
itself contains no error-handling code). -/
inductive SpecError where
  | formatError
  | outOfCoverageError
  | domainError
  | lengthMismatchError
  deriving DecidableEq

/-- Modelled from the spec: a `Spectrum` is an immutable record of
co-indexed wavelength, flux and flux-uncertainty arrays of one shared
length, a pipeline redshift and a sky coordinate (right ascension,
declination). The shared-length requirement of the data model is carried
as invariants, so no partial record exists. -/
structure Spectrum where
  wavelength : List ℝ
  flux : List ℝ
  fluxError : List ℝ
  redshift : ℝ
  skyCoordinate : ℝ × ℝ
  flux_length : flux.length = wavelength.length
  fluxError_length : fluxError.length = wavelength.length

theorem Spectrum.ext_data (s t : Spectrum) (hw : s.wavelength = t.wavelength)
    (hf : s.flux = t.flux) (he : s.fluxError = t.fluxError)
    (hz : s.redshift = t.redshift) (hc : s.skyCoordinate = t.skyCoordinate) :
    s = t := by
  cases s; cases t
  cases hw; cases hf; cases he; cases hz; cases hc
  rfl

/-- Modelled from the spec: the raw content of the downloaded
multi-extension file, before the loader validates it (the notebook cell
that reads the FITS file is blank). -/
structure RawSpecFile where
  hasExpectedExtensions : Bool
  wavelength : List ℝ
  flux : List ℝ
  fluxError : List ℝ
  redshift : ℝ
  skyCoordinate : ℝ × ℝ

/-- Modelled from the spec: the Spectrum Loader. It fails with
`formatError` when the expected extensions are missing and with
`lengthMismatchError` when the co-indexed arrays differ in length;
otherwise it yields the validated `Spectrum`. -/
def loadSpectrum (f : RawSpecFile) : Except SpecError Spectrum :=
  if f.hasExpectedExtensions = false then .error .formatError
  else if h : f.flux.length = f.wavelength.length ∧
      f.fluxError.length = f.wavelength.length then
    .ok ⟨f.wavelength, f.flux, f.fluxError, f.redshift, f.skyCoordinate, h.1, h.2⟩
  else .error .lengthMismatchError

/-- Modelled from the spec: the SFD dust map as a black-box lookup with
an explicit coverage domain; looked-up color-excess values satisfy
`E(B-V) ≥ 0` by the data model. -/
structure DustMap where
  covered : ℝ × ℝ → Bool
  reddening : ℝ × ℝ → ℝ
  reddening_nonneg : ∀ c, 0 ≤ reddening c

/-- Modelled from the spec: the Dust Lookup stage. Outside the map's
coverage it fails with `outOfCoverageError` (never a silent zero);
inside it returns the scalar `E(B-V)`. -/
def dustLookup (m : DustMap) (c : ℝ × ℝ) : Except SpecError ℝ :=
  if m.covered c then .ok (m.reddening c) else .error .outOfCoverageError

/-- Modelled from the spec: the fixed total-to-selective extinction
ratio of the Milky Way. -/
def Rv : ℝ := 3.1

/-- Modelled from the spec: V-band extinction `A_V = R_V * E(B-V)`. -/
def Av (ebv : ℝ) : ℝ := Rv * ebv

/-- Modelled from the spec: the per-wavelength extinction curve
`A(λ) = curveShape(λ) * A_V`, sampled at each wavelength of the input
array. The curve shape itself (Fitzpatrick 1999) lives in the external
extinction library, so it is a parameter here. -/
def Alam (curveShape : ℝ → ℝ) (ebv : ℝ) (wl : List ℝ) : List ℝ :=
  wl.map (fun l => curveShape l * Av ebv)

/-- Modelled from the spec: the dereddening multiplier `10^(0.4 * A)`. -/
noncomputable def deredFactor (a : ℝ) : ℝ := (10 : ℝ) ^ ((0.4 : ℝ) * a)

/-- Modelled from the spec: elementwise dereddening of a flux (or
flux-uncertainty) array against an extinction-magnitude array. -/
noncomputable def deredden (arr : List ℝ) (alam : List ℝ) : List ℝ :=
  List.zipWith (fun f a => f * deredFactor a) arr alam

/-- Modelled from the spec: the Extinction Corrector. It rescales flux
and fluxError by `10^(0.4 * A(λ))` and leaves wavelength, redshift and
coordinate alone. -/
noncomputable def correctExtinction (curveShape : ℝ → ℝ) (ebv : ℝ)
    (s : Spectrum) : Spectrum where
  wavelength := s.wavelength
  flux := deredden s.flux (Alam curveShape ebv s.wavelength)
  fluxError := deredden s.fluxError (Alam curveShape ebv s.wavelength)
  redshift := s.redshift
  skyCoordinate := s.skyCoordinate
  flux_length := by
    simp [deredden, Alam, s.flux_length]
  fluxError_length := by
    simp [deredden, Alam, s.fluxError_length]

/-- Modelled from the spec: the elementwise wavelength rescaling
`wavelength_rest[i] = wavelength_obs[i] / (1 + z)`. -/
noncomputable def restWavelength (wl : List ℝ) (z : ℝ) : List ℝ :=
  wl.map (fun w => w / (1 + z))

/-- Modelled from the spec: the result of a successful rest-frame
transform, with only the wavelength axis rescaled. -/
noncomputable def restFrameOut (s : Spectrum) : Spectrum where
  wavelength := restWavelength s.wavelength s.redshift
  flux := s.flux
  fluxError := s.fluxError
  redshift := s.redshift
  skyCoordinate := s.skyCoordinate
  flux_length := by simp [restWavelength, s.flux_length]
  fluxError_length := by simp [restWavelength, s.fluxError_length]

/-- Modelled from the spec: the Rest-Frame Transform. A redshift
`z ≤ -1` is physically undefined and fails with `domainError`;
otherwise only the wavelength axis is rescaled. -/
noncomputable def restFrame (s : Spectrum) : Except SpecError Spectrum :=
  if s.redshift ≤ -1 then .error .domainError
  else .ok (restFrameOut s)

/-- Modelled from the spec: the full linear pipeline, load then dust
lookup then extinction correction then rest-frame transform. -/
noncomputable def pipeline (m : DustMap) (curveShape : ℝ → ℝ)
    (f : RawSpecFile) : Except SpecError Spectrum := do
  let s ← loadSpectrum f
  let ebv ← dustLookup m s.skyCoordinate
  restFrame (correctExtinction curveShape ebv s)

/-! Helper lemmas about list indexing and the dereddening multiplier. -/

theorem getD_map_of_lt (g : ℝ → ℝ) (l : List ℝ) (i : ℕ) (hi : i < l.length)
    (d : ℝ) : (l.map g).getD i d = g (l.getD i d) := by
  induction l generalizing i with
  | nil => simp at hi
  | cons x xs ih =>
    cases i with
    | zero => simp
    | succ j =>
      simp only [List.map_cons, List.getD_cons_succ]
      exact ih j (by simpa using hi)

theorem getD_zipWith_of_lt (g : ℝ → ℝ → ℝ) (l1 l2 : List ℝ) (i : ℕ)
    (h1 : i < l1.length) (h2 : i < l2.length) (d : ℝ) :
    (List.zipWith g l1 l2).getD i d = g (l1.getD i d) (l2.getD i d) := by
  induction l1 generalizing l2 i with
  | nil => simp at h1
  | cons x xs ih =>
    cases l2 with
    | nil => simp at h2
    | cons y ys =>
      cases i with
      | zero => simp
      | succ j =>
        simp only [List.zipWith_cons_cons, List.getD_cons_succ]
        exact ih ys j (by simpa using h1) (by simpa using h2)

theorem deredden_factor_one (arr alam : List ℝ) (h : arr.length ≤ alam.length)
    (hone : ∀ a ∈ alam, deredFactor a = 1) : deredden arr alam = arr := by
  induction arr generalizing alam with
  | nil => simp [deredden]
  | cons x xs ih =>
    cases alam with
    | nil => simp at h
    | cons y ys =>
      have hy : deredFactor y = 1 := hone y (List.mem_cons_self y ys)
      have hxs : deredden xs ys = xs :=
        ih ys (by simpa using h) (fun a ha => hone a (List.mem_cons_of_mem y ha))
      simp only [deredden] at hxs ⊢
      simp [List.zipWith_cons_cons, hy, hxs]

theorem restFrame_ok (s : Spectrum) (hz : -1 < s.redshift) :
    restFrame s = .ok (restFrameOut s) := by
  simp only [restFrame, if_neg (not_le.mpr hz)]

/-! Concrete fixtures used by the witness theorems. -/

/-- A constant unit dust-law shape, used to instantiate theorems. -/
def csOne : ℝ → ℝ := fun _ => 1

/-- A one-sample spectrum with positive flux. -/
def sampleSpec : Spectrum :=
  ⟨[5000], [2], [1], 0.1, (10, -5), rfl, rfl⟩

/-- A one-sample spectrum with an unphysical redshift of -1. -/
def badZSpec : Spectrum :=
  ⟨[5000], [2], [1], -1, (10, -5), rfl, rfl⟩

/-- A one-sample spectrum whose flux sample is negative. -/
def negSpec : Spectrum :=
  ⟨[5000], [-1], [1], 0.1, (10, -5), rfl, rfl⟩

/-- A raw file whose wavelength and flux arrays differ in length. -/
def badFile : RawSpecFile :=
  ⟨true, [1, 2], [1], [1, 1], 0.1, (10, -5)⟩

/-- A dust map covering every coordinate with constant reddening. -/
def fullMap : DustMap :=
  ⟨fun _ => true, fun _ => 0.03, fun _ => by norm_num⟩

/-- A dust map covering no coordinate at all. -/
def emptyMap : DustMap :=
  ⟨fun _ => false, fun _ => 0, fun _ => le_refl 0⟩

/-! Claim theorems. -/

/-- C1: for every index i of the input arrays, the extinction corrector
returns flux_dered[i] = flux_obs[i] * 10^(0.4 * A(λ_i)), and the
corrected fluxError[i] equals fluxError_obs[i] multiplied by the same
factor 10^(0.4 * A(λ_i)). -/
theorem extinction_flux_formula (cs : ℝ → ℝ) (ebv : ℝ) (s : Spectrum)
    (i : ℕ) (hi : i < s.wavelength.length) :
    (correctExtinction cs ebv s).flux.getD i 0 =
      s.flux.getD i 0 *
        (10 : ℝ) ^ ((0.4 : ℝ) * (Alam cs ebv s.wavelength).getD i 0) ∧
    (correctExtinction cs ebv s).fluxError.getD i 0 =
      s.fluxError.getD i 0 *
        (10 : ℝ) ^ ((0.4 : ℝ) * (Alam cs ebv s.wavelength).getD i 0) := by
  have hA : (Alam cs ebv s.wavelength).length = s.wavelength.length := by
    simp [Alam]
  constructor
  · have h := getD_zipWith_of_lt (fun f a => f * deredFactor a) s.flux
      (Alam cs ebv s.wavelength) i (by rw [s.flux_length]; exact hi)
      (by rw [hA]; exact hi) 0
    simpa [correctExtinction, deredden, deredFactor] using h
  · have h := getD_zipWith_of_lt (fun f a => f * deredFactor a) s.fluxError
      (Alam cs ebv s.wavelength) i (by rw [s.fluxError_length]; exact hi)
      (by rw [hA]; exact hi) 0
    simpa [correctExtinction, deredden, deredFactor] using h

theorem extinction_flux_formula_witness :
    0 < sampleSpec.wavelength.length ∧
    (correctExtinction csOne 1 sampleSpec).flux.getD 0 0 =
      sampleSpec.flux.getD 0 0 *
        (10 : ℝ) ^ ((0.4 : ℝ) * (Alam csOne 1 sampleSpec.wavelength).getD 0 0) :=
  ⟨by simp [sampleSpec],
    (extinction_flux_formula csOne 1 sampleSpec 0 (by simp [sampleSpec])).1⟩

/-- C2: for every spectrum and every redshift z > -1 the rest-frame
transform succeeds and returns wavelength_rest[i] =
wavelength_obs[i] / (1 + z) at every index i; in particular a single
observed wavelength 6564.6 at z = 0.1 lands within 0.1 of 5967.8. -/
theorem restframe_divides :
    (∀ (s : Spectrum), -1 < s.redshift → ∀ i : ℕ, i < s.wavelength.length →
      ∃ s2, restFrame s = .ok s2 ∧
        s2.wavelength.getD i 0 = s.wavelength.getD i 0 / (1 + s.redshift)) ∧
    ∃ w, restWavelength [(6564.6 : ℝ)] 0.1 = [w] ∧ |w - 5967.8| < 0.1 := by
  constructor
  · intro s hz i hi
    refine ⟨restFrameOut s, restFrame_ok s hz, ?_⟩
    show (restWavelength s.wavelength s.redshift).getD i 0 = _
    rw [restWavelength, getD_map_of_lt _ _ _ hi]
  · refine ⟨6564.6 / (1 + 0.1), by simp [restWavelength], ?_⟩
    rw [abs_sub_lt_iff]
    norm_num

theorem restframe_divides_witness :
    ∃ s2, restFrame sampleSpec = .ok s2 ∧
      s2.wavelength.getD 0 0 =
        sampleSpec.wavelength.getD 0 0 / (1 + sampleSpec.redshift) :=
  restframe_divides.1 sampleSpec (by norm_num [sampleSpec]) 0
    (by simp [sampleSpec])

/-- C3: if E(B-V) = 0 then the extinction correction is the identity
transform: the corrected spectrum equals the input spectrum exactly. -/
theorem ebv_zero_identity (cs : ℝ → ℝ) (s : Spectrum) :
    correctExtinction cs 0 s = s := by
  have hone : ∀ a ∈ Alam cs 0 s.wavelength, deredFactor a = 1 := by
    intro a ha
    simp only [Alam, List.mem_map] at ha
    obtain ⟨l, _, rfl⟩ := ha
    simp [Av, Rv, deredFactor]
  refine Spectrum.ext_data _ _ rfl ?_ ?_ rfl rfl
  · exact deredden_factor_one _ _ (by simp [Alam, s.flux_length]) hone
  · exact deredden_factor_one _ _ (by simp [Alam, s.fluxError_length]) hone

/-- C4 counterexample: at a negative observed flux sample the claimed
invariant fails even though A(λ_0) ≥ 0: with flux_obs[0] = -1 and
A(λ_0) = 3.1, the dereddened flux is strictly below the observed one. -/
theorem brighten_invariant_counterexample :
    0 ≤ (Alam csOne 1 negSpec.wavelength).getD 0 0 ∧
    ¬ negSpec.flux.getD 0 0 ≤ (correctExtinction csOne 1 negSpec).flux.getD 0 0 := by
  have hfac : (1 : ℝ) < deredFactor (1 * (Rv * 1)) := by
    rw [deredFactor, Real.one_lt_rpow_iff_of_pos (by norm_num)]
    norm_num [Rv]
  constructor
  · norm_num [Alam, Av, Rv, negSpec, csOne]
  · simp only [correctExtinction, deredden, negSpec, csOne, Alam, Av,
      List.map_cons, List.map_nil, List.zipWith_cons_cons,
      List.zipWith_nil_right, List.getD_cons_zero]
    push_neg
    nlinarith [hfac]

/-- C4 amended: whenever A(λ_i) ≥ 0 and additionally the observed flux
sample is nonnegative, dereddening never dims:
flux_dered[i] ≥ flux_obs[i]. -/
theorem brighten_invariant_amended (cs : ℝ → ℝ) (ebv : ℝ) (s : Spectrum)
    (i : ℕ) (hi : i < s.wavelength.length)
    (hA : 0 ≤ (Alam cs ebv s.wavelength).getD i 0)
    (hf : 0 ≤ s.flux.getD i 0) :
    s.flux.getD i 0 ≤ (correctExtinction cs ebv s).flux.getD i 0 := by
  have hA2 : (Alam cs ebv s.wavelength).length = s.wavelength.length := by
    simp [Alam]
  have h := getD_zipWith_of_lt (fun f a => f * deredFactor a) s.flux
    (Alam cs ebv s.wavelength) i (by rw [s.flux_length]; exact hi)
    (by rw [hA2]; exact hi) 0
  have hfac : (1 : ℝ) ≤ deredFactor ((Alam cs ebv s.wavelength).getD i 0) := by
    rw [deredFactor]
    calc (1 : ℝ) = (10 : ℝ) ^ (0 : ℝ) := (Real.rpow_zero 10).symm
    _ ≤ (10 : ℝ) ^ ((0.4 : ℝ) * (Alam cs ebv s.wavelength).getD i 0) :=
      Real.rpow_le_rpow_of_exponent_le (by norm_num)
        (mul_nonneg (by norm_num) hA)
  have hcor : (correctExtinction cs ebv s).flux.getD i 0 =
      s.flux.getD i 0 * deredFactor ((Alam cs ebv s.wavelength).getD i 0) := by
    simpa [correctExtinction, deredden] using h
  rw [hcor]
  exact le_mul_of_one_le_right hf hfac

theorem brighten_invariant_amended_witness :
    0 < sampleSpec.wavelength.length ∧
    0 ≤ (Alam csOne 1 sampleSpec.wavelength).getD 0 0 ∧
    0 ≤ sampleSpec.flux.getD 0 0 ∧
    sampleSpec.flux.getD 0 0 ≤ (correctExtinction csOne 1 sampleSpec).flux.getD 0 0 := by
  have h1 : 0 < sampleSpec.wavelength.length := by simp [sampleSpec]
  have h2 : 0 ≤ (Alam csOne 1 sampleSpec.wavelength).getD 0 0 := by
    norm_num [Alam, Av, Rv, sampleSpec, csOne]
  have h3 : 0 ≤ sampleSpec.flux.getD 0 0 := by norm_num [sampleSpec]
  exact ⟨h1, h2, h3, brighten_invariant_amended csOne 1 sampleSpec 0 h1 h2 h3⟩

/-- C5: the extinction corrector computes A_V = R_V * E(B-V) with the
fixed constant R_V = 3.1, the extinction array factors as
A(λ_i) = curveShape(λ_i) * A_V sampled at each input wavelength, and
the corrector rescales the flux against exactly that array. -/
theorem av_alam_factoring :
    Rv = 3.1 ∧ (∀ ebv : ℝ, Av ebv = Rv * ebv) ∧
    (∀ (cs : ℝ → ℝ) (ebv : ℝ) (wl : List ℝ) (i : ℕ), i < wl.length →
      (Alam cs ebv wl).getD i 0 = cs (wl.getD i 0) * Av ebv) ∧
    (∀ (cs : ℝ → ℝ) (ebv : ℝ) (s : Spectrum),
      (correctExtinction cs ebv s).flux =
        deredden s.flux (Alam cs ebv s.wavelength)) := by
  refine ⟨rfl, fun _ => rfl, ?_, fun _ _ _ => rfl⟩
  intro cs ebv wl i hi
  rw [Alam, getD_map_of_lt _ _ _ hi]

theorem av_alam_factoring_witness :
    (0 : ℕ) < [(5000 : ℝ)].length ∧
    (Alam csOne 1 [(5000 : ℝ)]).getD 0 0 = csOne ([(5000 : ℝ)].getD 0 0) * Av 1 :=
  ⟨by simp, av_alam_factoring.2.2.1 csOne 1 [(5000 : ℝ)] 0 (by simp)⟩

/-- C6: the rest-frame transform fails with DomainError for every
redshift z ≤ -1, producing no output spectrum, and succeeds for every
z > -1. -/
theorem restframe_domain_error :
    (∀ s : Spectrum, s.redshift ≤ -1 → restFrame s = .error .domainError) ∧
    (∀ s : Spectrum, -1 < s.redshift → ∃ s2, restFrame s = .ok s2) := by
  constructor
  · intro s hz
    simp only [restFrame, if_pos hz]
  · intro s hz
    exact ⟨restFrameOut s, restFrame_ok s hz⟩

theorem restframe_domain_error_witness :
    restFrame badZSpec = .error .domainError ∧
    ∃ s2, restFrame sampleSpec = .ok s2 :=
  ⟨restframe_domain_error.1 badZSpec (by norm_num [badZSpec]),
    restframe_domain_error.2 sampleSpec (by norm_num [sampleSpec])⟩

/-- C7: when the arrays read from an otherwise well-formed input file do
not all share one length, the loader fails with LengthMismatchError, and
the whole pipeline stops with that error before any correction or
rest-frame transform contributes an output. -/
theorem load_length_mismatch (m : DustMap) (cs : ℝ → ℝ) (f : RawSpecFile)
    (hext : f.hasExpectedExtensions = true)
    (hlen : ¬ (f.flux.length = f.wavelength.length ∧
      f.fluxError.length = f.wavelength.length)) :
    loadSpectrum f = .error .lengthMismatchError ∧
    pipeline m cs f = .error .lengthMismatchError := by
  have hload : loadSpectrum f = .error .lengthMismatchError := by
    simp only [loadSpectrum, hext]
    rw [if_neg (by simp), dif_neg hlen]
  refine ⟨hload, ?_⟩
  simp only [pipeline, hload]
  rfl

theorem load_length_mismatch_witness :
    loadSpectrum badFile = .error .lengthMismatchError ∧
    pipeline fullMap csOne badFile = .error .lengthMismatchError :=
  load_length_mismatch fullMap csOne badFile rfl (by simp [badFile])

/-- C8: a dust lookup outside the map's coverage fails with
OutOfCoverageError and returns no reddening value at all, while inside
coverage it returns the scalar E(B-V), which is nonnegative. -/
theorem dust_lookup_coverage (m : DustMap) (c : ℝ × ℝ) :
    (m.covered c = false → dustLookup m c = .error .outOfCoverageError) ∧
    (m.covered c = true →
      dustLookup m c = .ok (m.reddening c) ∧ 0 ≤ m.reddening c) := by
  constructor
  · intro h
    simp [dustLookup, h]
  · intro h
    exact ⟨by simp [dustLookup, h], m.reddening_nonneg c⟩

theorem dust_lookup_coverage_witness :
    dustLookup emptyMap (999, 999) = .error .outOfCoverageError ∧
    (dustLookup fullMap (10, -5) = .ok (fullMap.reddening (10, -5)) ∧
      0 ≤ fullMap.reddening (10, -5)) :=
  ⟨(dust_lookup_coverage emptyMap (999, 999)).1 rfl,
    (dust_lookup_coverage fullMap (10, -5)).2 rfl⟩

/-- C9: the rest-frame transform changes only the wavelength array:
whenever it succeeds, the output flux and fluxError arrays are exactly
the input ones, with no flux-density Jacobian factor applied. -/
theorem restframe_preserves_flux (s s2 : Spectrum)
    (h : restFrame s = .ok s2) :
    s2.flux = s.flux ∧ s2.fluxError = s.fluxError := by
  by_cases hz : s.redshift ≤ -1
  · simp [restFrame, hz] at h
  · rw [restFrame_ok s (not_le.mp hz)] at h
    injection h with h2
    subst h2
    exact ⟨rfl, rfl⟩

theorem restframe_preserves_flux_witness :
    (restFrameOut sampleSpec).flux = sampleSpec.flux ∧
    (restFrameOut sampleSpec).fluxError = sampleSpec.fluxError :=
  restframe_preserves_flux sampleSpec (restFrameOut sampleSpec)
    (restFrame_ok sampleSpec (by norm_num [sampleSpec]))

/-- C10: the extinction-correction stage changes only flux and
fluxError: the output wavelength array and redshift equal the input
ones, and both corrected arrays keep the shared input length N. -/
theorem extinction_preserves_frame (cs : ℝ → ℝ) (ebv : ℝ) (s : Spectrum) :
    (correctExtinction cs ebv s).wavelength = s.wavelength ∧
    (correctExtinction cs ebv s).redshift = s.redshift ∧
    (correctExtinction cs ebv s).flux.length = s.wavelength.length ∧
    (correctExtinction cs ebv s).fluxError.length = s.wavelength.length := by
  refine ⟨rfl, rfl, ?_, ?_⟩
  · exact (correctExtinction cs ebv s).flux_length
  · exact (correctExtinction cs ebv s).fluxError_length

end Spectroscopy
